import Mathlib

/-!
Verification of the real-time delivery / agentic-orchestration core of the
botsapp backend (FastAPI, `src/backend/app`), as a shallow embedding in Lean 4.

Each definition is translated from the named Python source function.
Effectful parts (HTTP responses, LLM responses, websocket send outcomes,
database rows) are passed in explicitly as values; clock reads are passed as a
`now : Nat` parameter; monetary sleeps are recorded in milliseconds.
-/

/-! ## Call metrics (`app/services/call_service.py`, `CALL_METRICS` / `_inc`)

The source keeps a module-level `dict[str, int]`; `_inc` does
`CALL_METRICS[metric] = CALL_METRICS.get(metric, 0) + 1`.  We model the dict
as a total function `String → Nat` (absent key = 0, matching `.get(_, 0)`). -/

def Metrics : Type := String → Nat

def initialCallMetrics : Metrics := fun _ => 0

def _inc (m : Metrics) (metric : String) : Metrics :=
  fun k => if k = metric then m k + 1 else m k

/-! ## CallLifecycle (`app/services/call_service.py`, `apply_status_transition`)

`OutboundCallIntent` columns relevant to a status transition.  Timestamps are
abstract clock values (`Option Nat`, `none` = SQL NULL). -/

structure OutboundCallIntent where
  status : String
  ringing_at : Option Nat
  accepted_at : Option Nat
  ended_at : Option Nat
  end_reason : Option String
deriving Repr, DecidableEq

/-- Statuses the spec (§4.3) declares terminal. -/
def isTerminalStatus (s : String) : Bool :=
  s = "completed" || s = "missed" || s = "declined" || s = "failed"

/-- Translation of `apply_status_transition(intent, status, end_reason)`.
The Python function unconditionally sets `intent.status = status`, then
branches on `status` to stamp timestamps, record the end reason and bump a
metric.  `end_reason or status` is modelled by `Option.getD`.  There is no
guard on the intent's current status. -/
def apply_status_transition (intent : OutboundCallIntent) (metrics : Metrics)
    (now : Nat) (status : String) (end_reason : Option String) :
    OutboundCallIntent × Metrics :=
  let intent1 := { intent with status := status }
  if status = "ringing" then
    ({ intent1 with ringing_at := some now }, metrics)
  else if status = "accepted" then
    ({ intent1 with accepted_at := some now }, _inc metrics "accepted")
  else if status = "ended" ∨ status = "completed" then
    ({ intent1 with
        ended_at := some now
        end_reason := end_reason },
      _inc metrics "completed")
  else if status = "missed" ∨ status = "declined" ∨ status = "failed" then
    ({ intent1 with
        ended_at := some now
        end_reason := some (end_reason.getD status) },
      _inc metrics "missed")
  else (intent1, metrics)

/-! ## PushDispatcher (`app/services/call_service.py`, `send_voip_push`)

Inputs: whether APNs credentials are configured (`can_send_voip_push`), and
one outcome per HTTP attempt — `some code` is an HTTP response with that
status, `none` is a raised exception.  Attempt `i` (1-based) reads
`responses[i-1]`; a missing entry is treated as an exception.  The trace
records the result, how many times the signed JWT was built, how many
attempts ran, and every back-off sleep (in ms, source starts at 0.25 s and
doubles after each failed non-final attempt). -/

structure PushTrace where
  ok : Bool
  jwtBuilds : Nat
  attemptsMade : Nat
  sleepsMs : List Nat
  metrics : Metrics

/-- One HTTP attempt outcome as seen by `send_voip_push`'s loop body. -/
def attemptOutcome (responses : List (Option Nat)) (i : Nat) : Option Nat :=
  responses.getD i none

/-- The `for attempt in range(1, retries + 1)` loop of `send_voip_push`:
success is exactly `response.status_code == 200`; a failed attempt that is not
the last sleeps `backoff` and doubles it.  Returns (ok, attempts made,
sleeps). -/
def pushLoop (responses : List (Option Nat)) :
    Nat → Nat → Nat → List Nat → Bool × Nat × List Nat
  | 0, idx, _, sleeps => (false, idx - 1, sleeps)
  | r + 1, idx, backoffMs, sleeps =>
    if attemptOutcome responses (idx - 1) = some 200 then (true, idx, sleeps)
    else if r = 0 then (false, idx, sleeps)
    else pushLoop responses r (idx + 1) (backoffMs * 2) (sleeps ++ [backoffMs])

/-- Translation of `send_voip_push(voip_token, payload, retries)`.  When not
configured it returns `False` having built no JWT and touched no metric.
Otherwise it builds the JWT once (before the loop), runs the attempt loop,
and on success increments `push_sent` (inside the loop) or, after exhausting
every attempt, increments `push_failed` exactly once. -/
def send_voip_push (configured : Bool) (responses : List (Option Nat))
    (retries : Nat) (metrics : Metrics) : PushTrace :=
  if configured = false then
    { ok := false, jwtBuilds := 0, attemptsMade := 0, sleepsMs := [],
      metrics := metrics }
  else
    let r := pushLoop responses retries 1 250 []
    if r.1 then
      { ok := true, jwtBuilds := 1, attemptsMade := r.2.1, sleepsMs := r.2.2,
        metrics := _inc metrics "push_sent" }
    else
      { ok := false, jwtBuilds := 1, attemptsMade := r.2.1, sleepsMs := r.2.2,
        metrics := _inc metrics "push_failed" }

/-! ## AgentLoop

Two variants exist in the source:
* `get_ai_response_stream_langchain` (`app/services/llm_service_langchain.py`):
  one model invocation before the loop, then
  `while response.tool_calls and iteration < max_iterations` with one further
  model invocation at the end of each loop body.
* `_react_loop` (`app/services/proactive_service.py`):
  `while iteration < max_iterations`, one model invocation at the top of each
  body, `break` on a response without tool calls, and `break` at the end of
  the first iteration that queued a `send_message_tool` push.

A model response is its text plus its requested tool calls; the model itself
is an external collaborator and is passed in as the stream
`responses : Nat → ModelResponse`, where `responses i` is what the
(i+1)-st model invocation returns. -/

structure ToolCall where
  name : String
  message : String
  callId : String
deriving Repr, DecidableEq

structure ModelResponse where
  content : String
  tool_calls : List ToolCall
deriving Repr, DecidableEq

structure ToolResult where
  success : Bool
  action : Option String
  message : Option String
deriving Repr, DecidableEq

/-- Python's `str.strip()`: drop leading and trailing whitespace. -/
def pyStrip (s : String) : String :=
  ((s.data.dropWhile Char.isWhitespace).reverse.dropWhile
    Char.isWhitespace).reverse.asString

/-- Translation of the `send_message_tool` body
(`app/services/proactive_service.py`): an empty or whitespace-only message is
rejected; otherwise it returns success with action `push_to_main` and the
stripped message. -/
def send_message_tool_run (message : String) : ToolResult :=
  if pyStrip message = "" then
    { success := false, action := none, message := none }
  else
    { success := true, action := some "push_to_main",
      message := some (pyStrip message) }

/-- The per-iteration queueing in `_react_loop`: for each tool call in source
order, if its name is `send_message_tool` and the executed result has
`success` truthy, `action == "push_to_main"` and a truthy `message`, the
message is appended to `messages_to_push`. -/
def collectPushes : List ToolCall → List String
  | [] => []
  | tc :: rest =>
    if tc.name = "send_message_tool" then
      let r := send_message_tool_run tc.message
      if r.success = true ∧ r.action = some "push_to_main" ∧
          r.message.getD "" ≠ "" then
        r.message.getD "" :: collectPushes rest
      else collectPushes rest
    else collectPushes rest

/-- Body of `_react_loop`'s `while iteration < max_iterations` loop,
recursing on the remaining iteration budget.  State: queued pushes and the
number of model invocations so far.  Returns (total model invocations,
messages later handed to `_push_to_main_conversation`). -/
def react_loop_go (responses : Nat → ModelResponse) :
    Nat → List String → Nat → Nat × List String
  | 0, queued, invocations => (invocations, queued)
  | r + 1, queued, invocations =>
    let resp := responses invocations
    let inv1 := invocations + 1
    if resp.tool_calls.isEmpty then (inv1, queued)
    else
      let queued1 := queued ++ collectPushes resp.tool_calls
      if queued1.isEmpty then react_loop_go responses r queued1 inv1
      else (inv1, queued1)

/-- `_react_loop(db, bot, chat, session_id, state, llm_with_tools, messages)`:
`max_iterations = 10` in source; after the loop every queued message is pushed
to the main conversation (one `_push_to_main_conversation` call each). -/
def react_loop (responses : Nat → ModelResponse) (max_iterations : Nat) :
    Nat × List String :=
  react_loop_go responses max_iterations [] 0

/-- The source literal `max_iterations = 10` (both loop variants). -/
def react_max_iterations : Nat := 10

/-- The `while response.tool_calls and iteration < max_iterations` loop of
`get_ai_response_stream_langchain`, recursing on the remaining iteration
budget; each executed body ends with one further model invocation.  Returns
the total number of model invocations performed. -/
def stream_loop_go (responses : Nat → ModelResponse) :
    Nat → ModelResponse → Nat → Nat
  | remaining, resp, invocations =>
    if resp.tool_calls.isEmpty then invocations
    else
      match remaining with
      | 0 => invocations
      | r + 1 =>
        stream_loop_go responses r (responses invocations) (invocations + 1)

/-- Model-invocation count of `get_ai_response_stream_langchain`: one initial
`llm_with_tools.ainvoke(messages)` before the loop, then the loop. -/
def get_ai_response_stream_langchain (responses : Nat → ModelResponse)
    (max_iterations : Nat) : Nat :=
  stream_loop_go responses max_iterations (responses 0) 1

/-- An adversarial model stream: every response requests another tool call. -/
def alwaysToolCall : Nat → ModelResponse :=
  fun _ => { content := "", tool_calls := [⟨"web_search_tool", "", "1"⟩] }

/-- A model stream whose first response requests `send_message_tool` twice. -/
def doubleSendStream : Nat → ModelResponse :=
  fun _ =>
    { content := ""
      tool_calls :=
        [⟨"send_message_tool", "hello", "1"⟩,
         ⟨"send_message_tool", "world", "2"⟩] }

/-! ## PresenceRouter (`app/routers/ws.py`, `ConnectionManager`)

`active_connections : dict[str, list[WebSocket]]` is modelled extensionally
as `String → Option (List Nat)` (`none` = key absent); websocket handles are
`Nat`.  Whether `ws.send_text` succeeds on a given connection is an input
`healthy : Nat → Bool` (an unhealthy connection is one whose send raises;
the source catches the exception and collects the connection as stale). -/

def ConnState : Type := String → Option (List Nat)

def emptyConnState : ConnState := fun _ => none

def updateUser (s : ConnState) (u : String) (v : Option (List Nat)) :
    ConnState :=
  fun x => if x = u then v else s x

/-- `ConnectionManager.connect`: create the user's list if absent, then
append the connection (duplicates allowed). -/
def connect (s : ConnState) (u : String) (ws : Nat) : ConnState :=
  updateUser s u (some ((s u).getD [] ++ [ws]))

/-- `ConnectionManager.disconnect`: remove the first occurrence of the
connection if present, and drop the user's entry entirely when the list
becomes (or already was) empty. -/
def disconnect (s : ConnState) (u : String) (ws : Nat) : ConnState :=
  match s u with
  | none => s
  | some cs =>
    let cs1 := cs.erase ws
    if cs1 = [] then updateUser s u none else updateUser s u (some cs1)

/-- `ConnectionManager.send_to_user`: returns
(delivered count, state after pruning, number of serializations).
The source returns 0 immediately for an unknown user, serializes once
(`json.dumps`), iterates over a copy of the list sending to each connection,
counts successes, and finally `disconnect`s every stale connection. -/
def send_to_user (s : ConnState) (u : String) (healthy : Nat → Bool) :
    Nat × ConnState × Nat :=
  match s u with
  | none => (0, s, 0)
  | some cs =>
    let delivered := (cs.filter (fun ws => healthy ws)).length
    let stale := cs.filter (fun ws => !healthy ws)
    let s1 := stale.foldl (fun st ws => disconnect st u ws) s
    (delivered, s1, 1)

/-- `ConnectionManager.is_online`: membership and a non-empty list. -/
def is_online (s : ConnState) (u : String) : Bool :=
  match s u with
  | none => false
  | some cs => decide (0 < cs.length)

/-! ## ProactiveState and ProactiveTrigger
(`app/models/proactive_state.py`, `app/services/proactive_service.py`) -/

structure ProactiveState where
  message_count : Nat
  session_counter : Nat
  last_reset_at : Option Nat
deriving Repr, DecidableEq

/-- `_get_max_messages(bot)`: `max(int(cfg.get("proactive_max_messages", 5)), 1)`
with 5 on a parse failure.  `none` = key absent. -/
def _get_max_messages (cfgVal : Option Int) : Nat :=
  match cfgVal with
  | none => 5
  | some v => max v.toNat 1

/-- Result of `_process_proactive_chat` for one chat: the stored
`ProactiveState` afterwards, whether the ReACT loop (the agent loop) was
invoked at all, and the messages pushed to the main conversation. -/
structure ProactiveChatResult where
  state : ProactiveState
  loop_invoked : Bool
  pushes : List String
deriving Repr, DecidableEq

/-- Translation of `_process_proactive_chat(db, bot, chat, max_messages, …)`:
load or lazily create the state; if `message_count >= max_messages` return
without touching the state or invoking the loop; otherwise increment
`session_counter`, run `_react_loop`, and (inside
`_push_to_main_conversation`) increment `message_count` once per pushed
message. -/
def _process_proactive_chat (st0 : Option ProactiveState) (max_messages : Nat)
    (responses : Nat → ModelResponse) (max_iterations : Nat) :
    ProactiveChatResult :=
  let state := st0.getD { message_count := 0, session_counter := 0,
                          last_reset_at := none }
  if max_messages ≤ state.message_count then
    { state := state, loop_invoked := false, pushes := [] }
  else
    let state1 := { state with session_counter := state.session_counter + 1 }
    let r := react_loop responses max_iterations
    { state :=
        { state1 with message_count := state1.message_count + r.2.length }
      loop_invoked := true
      pushes := r.2 }

/-- Translation of `reset_proactive_counter(chat_id)`
(`app/services/proactive_service.py`): if a state row exists and
`message_count > 0`, zero it and stamp `last_reset_at`.  This function has no
caller anywhere in the repository. -/
def reset_proactive_counter (st : Option ProactiveState) (now : Nat) :
    Option ProactiveState :=
  match st with
  | none => none
  | some s =>
    if 0 < s.message_count then
      some { s with message_count := 0, last_reset_at := some now }
    else some s

/-- Effects of the `msg_type == "message"` branch of `websocket_endpoint`
(`app/routers/ws.py`) on the entities it writes.  The branch stores the user
message, zeroes then (after the AI reply) bumps `chat.unread_count`, stores
the assistant message, and may send an offline push — it contains no read or
write of `ProactiveState` and no call to `reset_proactive_counter`, so the
chat's proactive state is passed through unchanged. -/
structure WsMessageOutcome where
  chat_found : Bool
  unread_count : Option Nat
  user_msgs_added : Nat
  ai_msgs_added : Nat
  proactive : Option ProactiveState
deriving Repr, DecidableEq

def websocket_handle_message (chat_found : Bool)
    (proactive : Option ProactiveState) : WsMessageOutcome :=
  if chat_found = false then
    { chat_found := false, unread_count := none, user_msgs_added := 0,
      ai_msgs_added := 0, proactive := proactive }
  else
    { chat_found := true, unread_count := some 1, user_msgs_added := 1,
      ai_msgs_added := 1, proactive := proactive }

/-! ## ReminderScheduler (`app/services/reminder_service.py`,
`trigger_reminder`) -/

structure Reminder where
  is_completed : Bool
  reminder_type : String
deriving Repr, DecidableEq

/-- Translation of `trigger_reminder(reminder_id)`: reload the reminder
(`none` = row missing); drop the fire if it is missing or already completed;
drop it if the user row is missing.  Otherwise perform the side effect —
for type `call` one `create_call_intent` (plus ringing transition and push
delivery); otherwise one live websocket delivery when the user is online,
else one push notification when an FCM token exists, else nothing — and
finally mark the reminder completed.  Returns the stored reminder and the
number of externally-visible side effects. -/
def trigger_reminder (rem : Option Reminder) (user_found online fcm : Bool) :
    Option Reminder × Nat :=
  match rem with
  | none => (none, 0)
  | some r =>
    if r.is_completed then (some r, 0)
    else if user_found = false then (some r, 0)
    else
      let effects : Nat :=
        if r.reminder_type = "call" then 1
        else if online then 1
        else if fcm then 1
        else 0
      (some { r with is_completed := true }, effects)

/-! ## Concrete inputs used by witnesses and counterexamples, and
derived notions used in theorem statements -/

/-- A model stream requesting `send_message_tool` exactly once per response. -/
def singleSendStream : Nat → ModelResponse :=
  fun _ => { content := "", tool_calls := [⟨"send_message_tool", "hi", "1"⟩] }

/-- Erase (first occurrence of) each element of `bad` in turn, as the final
pruning pass of `send_to_user` does via repeated `disconnect`s. -/
def eraseAll (cs bad : List Nat) : List Nat :=
  bad.foldl (fun l x => l.erase x) cs

/-- Two live connections for alice, built through `connect`. -/
def demoState : ConnState :=
  connect (connect emptyConnState "alice" 1) "alice" 2

/-- The `ConnectionManager` representation invariant: a user key that is
present maps to a non-empty connection list. -/
def ConnInv (s : ConnState) : Prop := ∀ v, s v ≠ some []

/-- The concrete reminder used by the C9 witness. -/
def demoReminder : Reminder := { is_completed := false, reminder_type := "call" }

/-! ## Helper lemmas -/

/-- `stream_loop_go` performs at most `remaining` further model invocations. -/
lemma stream_loop_go_le (responses : Nat → ModelResponse) :
    ∀ (remaining : Nat) (resp : ModelResponse) (inv : Nat),
      stream_loop_go responses remaining resp inv ≤ inv + remaining := by
  intro remaining
  induction remaining with
  | zero =>
    intro resp inv
    unfold stream_loop_go
    split
    · exact Nat.le_refl _
    · exact Nat.le_refl _
  | succ r ih =>
    intro resp inv
    unfold stream_loop_go
    split
    · exact Nat.le_add_right _ _
    · calc stream_loop_go responses r (responses inv) (inv + 1)
          ≤ inv + 1 + r := ih _ _
        _ ≤ inv + (r + 1) := by omega

/-- `react_loop_go` performs at most `remaining` model invocations. -/
lemma react_loop_go_le (responses : Nat → ModelResponse) :
    ∀ (remaining : Nat) (queued : List String) (inv : Nat),
      (react_loop_go responses remaining queued inv).1 ≤ inv + remaining := by
  intro remaining
  induction remaining with
  | zero => intro queued inv; exact Nat.le_refl _
  | succ r ih =>
    intro queued inv
    unfold react_loop_go
    dsimp only
    split
    · omega
    · split
      · calc (react_loop_go responses r _ (inv + 1)).1
            ≤ inv + 1 + r := ih _ _
          _ ≤ inv + (r + 1) := by omega
      · omega

/-! ## C1 -/

/-- C1: FALSIFIED — `apply_status_transition` has no guard on the current
status.  On an intent that is already terminal (`completed`, ended at 5 with
reason `done`), a further `missed` transition is neither rejected nor a
no-op: it overwrites the status, the end reason and the ended timestamp, and
increments the `missed` outcome counter in `CALL_METRICS`. -/
theorem C1_terminal_transition_overwritten :
    isTerminalStatus "completed" = true ∧
    (apply_status_transition
        { status := "completed", ringing_at := some 1, accepted_at := some 2,
          ended_at := some 5, end_reason := some "done" }
        initialCallMetrics 10 "missed" none).1
      = { status := "missed", ringing_at := some 1, accepted_at := some 2,
          ended_at := some 10, end_reason := some "missed" } ∧
    (apply_status_transition
        { status := "completed", ringing_at := some 1, accepted_at := some 2,
          ended_at := some 5, end_reason := some "done" }
        initialCallMetrics 10 "missed" none).2 "missed"
      = initialCallMetrics "missed" + 1 := by
  refine ⟨rfl, ?_, ?_⟩ <;> decide

/-! ## C2 -/

/-- C2 counterexample: with a model that requests a tool call in every
response, `get_ai_response_stream_langchain` performs 11 model invocations —
one before the loop plus one per loop iteration — exceeding the iteration
ceiling of 10. -/
theorem C2_counterexample_eleven_invocations :
    get_ai_response_stream_langchain alwaysToolCall react_max_iterations = 11
    ∧ ¬ (get_ai_response_stream_langchain alwaysToolCall react_max_iterations
          ≤ react_max_iterations) := by
  constructor <;> decide

/-- C2 (amended): for every sequence of model responses both agent loops
terminate; the proactive `_react_loop` performs at most the iteration ceiling
(10) model invocations, while `get_ai_response_stream_langchain` performs at
most the ceiling plus one (its initial pre-loop invocation). -/
theorem C2_loop_invocation_bounds (responses : Nat → ModelResponse) :
    (react_loop responses react_max_iterations).1 ≤ react_max_iterations ∧
    get_ai_response_stream_langchain responses react_max_iterations
      ≤ react_max_iterations + 1 := by
  constructor
  · have h := react_loop_go_le responses react_max_iterations [] 0
    simpa [react_loop] using h
  · have h := stream_loop_go_le responses react_max_iterations
      (responses 0) 1
    unfold get_ai_response_stream_langchain
    omega

/-! ## C3 -/

/-- C3 counterexample: a single model response carrying two successful
`send_message_tool` calls makes one `_react_loop` invocation push two
messages to the main conversation. -/
theorem C3_counterexample_double_push :
    (react_loop doubleSendStream react_max_iterations).2 = ["hello", "world"]
    ∧ ¬ ((react_loop doubleSendStream react_max_iterations).2.length ≤ 1) := by
  constructor <;> decide

/-- `collectPushes` queues at most one message per `send_message_tool` call
in the response. -/
lemma collectPushes_length_le (tcs : List ToolCall) :
    (collectPushes tcs).length
      ≤ tcs.countP (fun tc => tc.name == "send_message_tool") := by
  induction tcs with
  | nil => simp [collectPushes]
  | cons tc rest ih =>
    unfold collectPushes
    by_cases hname : tc.name = "send_message_tool"
    · rw [List.countP_cons_of_pos _ _ (by simpa using hname)]
      simp only [hname, if_true]
      split
      · simpa using Nat.succ_le_succ ih
      · omega
    · rw [List.countP_cons_of_neg _ _ (by simpa using hname)]
      simp only [hname, if_false]
      exact ih

/-- Under the single-`send_message_tool`-per-response hypothesis, the loop's
queued-push list never exceeds one element. -/
lemma react_loop_go_pushes_le (responses : Nat → ModelResponse)
    (h : ∀ i, ((responses i).tool_calls.countP
        (fun tc => tc.name == "send_message_tool")) ≤ 1) :
    ∀ (remaining inv : Nat),
      (react_loop_go responses remaining [] inv).2.length ≤ 1 := by
  intro remaining
  induction remaining with
  | zero => intro inv; simp [react_loop_go]
  | succ r ih =>
    intro inv
    unfold react_loop_go
    dsimp only
    split
    · simp
    · rw [List.nil_append]
      split
      · next hemp =>
        rw [List.isEmpty_iff] at hemp
        rw [hemp]
        exact ih (inv + 1)
      · calc (collectPushes (responses inv).tool_calls).length
            ≤ _ := collectPushes_length_le _
          _ ≤ 1 := h inv

/-- C3 (amended): the loop ends at the first iteration in which
`send_message_tool` fires, so at most one *iteration* contributes pushes; if
additionally every model response requests `send_message_tool` at most once,
then a `_react_loop` invocation pushes at most one message to the main
conversation. -/
theorem C3_at_most_one_push (responses : Nat → ModelResponse)
    (h : ∀ i, ((responses i).tool_calls.countP
        (fun tc => tc.name == "send_message_tool")) ≤ 1) :
    (react_loop responses react_max_iterations).2.length ≤ 1 := by
  have := react_loop_go_pushes_le responses h react_max_iterations 0
  simpa [react_loop] using this

/-- C3 witness: the amended bound at a concrete stream. -/
theorem C3_witness :
    (react_loop singleSendStream react_max_iterations).2.length ≤ 1 := by
  apply C3_at_most_one_push
  intro i
  simp only [singleSendStream]
  decide

/-! ## C4 -/

/-- If none of the attempts that will run hits status 200, the attempt loop
exhausts and reports failure. -/
lemma pushLoop_fail (rs : List (Option Nat)) :
    ∀ (remaining idx b : Nat) (s : List Nat), 1 ≤ idx →
      (∀ k, k < remaining → attemptOutcome rs (idx - 1 + k) ≠ some 200) →
      (pushLoop rs remaining idx b s).1 = false := by
  intro remaining
  induction remaining with
  | zero => intro idx b s _ _; rfl
  | succ r ih =>
    intro idx b s hidx h
    have h0 : attemptOutcome rs (idx - 1) ≠ some 200 := by
      simpa using h 0 (Nat.succ_pos r)
    unfold pushLoop
    rw [if_neg h0]
    split
    · rfl
    · apply ih (idx + 1) (b * 2) (s ++ [b]) (by omega)
      intro k hk
      have hidxk : idx + 1 - 1 + k = idx - 1 + (k + 1) := by omega
      rw [hidxk]
      exact h (k + 1) (by omega)

/-- C4: when APNs is configured and every one of the `retries` attempts
fails (no response with status exactly 200), `send_voip_push` returns
`false` and increments the `push_failed` counter exactly once for the whole
call, leaving `push_sent` untouched. -/
theorem C4_push_failed_incremented_once (rs : List (Option Nat))
    (retries : Nat) (m : Metrics)
    (h : ∀ k, k < retries → attemptOutcome rs k ≠ some 200) :
    (send_voip_push true rs retries m).ok = false ∧
    (send_voip_push true rs retries m).metrics "push_failed"
      = m "push_failed" + 1 ∧
    (send_voip_push true rs retries m).metrics "push_sent"
      = m "push_sent" := by
  have hfail : (pushLoop rs retries 1 250 []).1 = false := by
    apply pushLoop_fail rs retries 1 250 [] (Nat.le_refl 1)
    intro k hk
    simpa using h k hk
  unfold send_voip_push
  rw [if_neg (by simp)]
  dsimp only
  rw [hfail]
  simp only [Bool.false_eq_true, if_false]
  refine ⟨?_, ?_, ?_⟩ <;> simp [_inc]

/-- C4 witness: three consecutive failures (HTTP 500, an exception, HTTP
429) with the default `retries = 3`. -/
theorem C4_witness :
    (send_voip_push true [some 500, none, some 429] 3
        initialCallMetrics).ok = false ∧
    (send_voip_push true [some 500, none, some 429] 3
        initialCallMetrics).metrics "push_failed"
      = initialCallMetrics "push_failed" + 1 ∧
    (send_voip_push true [some 500, none, some 429] 3
        initialCallMetrics).metrics "push_sent"
      = initialCallMetrics "push_sent" := by
  apply C4_push_failed_incremented_once
  intro k hk
  interval_cases k <;> decide

/-! ## C5 -/

/-- C5 counterexample: a 200-class but non-200 response (HTTP 204) does NOT
short-circuit `send_voip_push` with success — the source tests
`status_code == 200` exactly, so three 204 responses exhaust the retries and
the call fails. -/
theorem C5_counterexample_204_not_success :
    (send_voip_push true [some 204, some 204, some 204] 3
        initialCallMetrics).ok = false ∧
    (send_voip_push true [some 204, some 204, some 204] 3
        initialCallMetrics).attemptsMade = 3 := by
  constructor <;> decide

/-- Success of attempt `idx + d` (1-based) after `d` failed attempts:
the loop stops there, having slept the doubling back-off after each failed
attempt. -/
lemma pushLoop_success (rs : List (Option Nat)) :
    ∀ (d remaining idx b : Nat) (s : List Nat), 1 ≤ idx →
      d + 1 ≤ remaining →
      (∀ i, i < d → attemptOutcome rs (idx - 1 + i) ≠ some 200) →
      attemptOutcome rs (idx - 1 + d) = some 200 →
      pushLoop rs remaining idx b s
        = (true, idx + d, s ++ (List.range d).map (fun i => b * 2 ^ i)) := by
  intro d
  induction d with
  | zero =>
    intro remaining idx b s hidx hrem hfail hsucc
    obtain ⟨r, rfl⟩ : ∃ r, remaining = r + 1 :=
      ⟨remaining - 1, by omega⟩
    unfold pushLoop
    rw [if_pos (by simpa using hsucc)]
    simp
  | succ d ih =>
    intro remaining idx b s hidx hrem hfail hsucc
    obtain ⟨r, rfl⟩ : ∃ r, remaining = r + 1 :=
      ⟨remaining - 1, by omega⟩
    have h0 : attemptOutcome rs (idx - 1) ≠ some 200 := by
      simpa using hfail 0 (Nat.succ_pos d)
    unfold pushLoop
    rw [if_neg h0, if_neg (by omega)]
    have hrec := ih r (idx + 1) (b * 2) (s ++ [b]) (by omega) (by omega)
      (by
        intro i hi
        have hidxi : idx + 1 - 1 + i = idx - 1 + (i + 1) := by omega
        rw [hidxi]
        exact hfail (i + 1) (by omega))
      (by
        have hidxd : idx + 1 - 1 + d = idx - 1 + (d + 1) := by omega
        rw [hidxd]
        exact hsucc)
    have h1 : idx + 1 + d = idx + (d + 1) := by omega
    have h2 : (s ++ [b]) ++ (List.range d).map (fun i => b * 2 * 2 ^ i)
        = s ++ (List.range (d + 1)).map (fun i => b * 2 ^ i) := by
      rw [List.range_succ_eq_map, List.map_cons, List.map_map]
      have hfun : ((fun i => b * 2 ^ i) ∘ Nat.succ)
          = fun i => b * 2 * 2 ^ i := by
        funext i
        simp only [Function.comp, pow_succ]
        ring
      rw [hfun]
      simp [List.append_assoc]
    rw [hrec, h1, h2]

/-- C5 (amended): when configured, `send_voip_push` builds the signed
authorization assertion exactly once per call (regardless of outcome), the
sleep before retry `k+1` is 250 ms doubled after each failed attempt, and
the first attempt whose HTTP response has status **exactly 200** (not merely
200-class) short-circuits the loop with success and no further attempts. -/
theorem C5_jwt_once_backoff_and_exact_200 (rs : List (Option Nat))
    (retries : Nat) (m : Metrics) (j : Nat)
    (hj1 : 1 ≤ j) (hj2 : j ≤ retries)
    (hfail : ∀ i, i < j - 1 → attemptOutcome rs i ≠ some 200)
    (hsucc : attemptOutcome rs (j - 1) = some 200) :
    (send_voip_push true rs retries m).ok = true ∧
    (send_voip_push true rs retries m).attemptsMade = j ∧
    (send_voip_push true rs retries m).sleepsMs
      = (List.range (j - 1)).map (fun i => 250 * 2 ^ i) ∧
    (send_voip_push true rs retries m).metrics "push_sent"
      = m "push_sent" + 1 ∧
    (send_voip_push true rs retries m).metrics "push_failed"
      = m "push_failed" ∧
    (∀ rs2 n m2, (send_voip_push true rs2 n m2).jwtBuilds = 1) := by
  have hloop := pushLoop_success rs (j - 1) retries 1 250 []
    (Nat.le_refl 1) (by omega)
    (by
      intro i hi
      simpa using hfail i hi)
    (by simpa using hsucc)
  have hone : 1 + (j - 1) = j := by omega
  rw [hone] at hloop
  have hjwt : ∀ rs2 n m2, (send_voip_push true rs2 n m2).jwtBuilds = 1 := by
    intro rs2 n m2
    unfold send_voip_push
    rw [if_neg (by simp)]
    dsimp only
    split <;> rfl
  unfold send_voip_push
  rw [if_neg (by simp)]
  dsimp only
  rw [hloop]
  simp only [if_true]
  refine ⟨?_, ?_, ?_, ?_, ?_, hjwt⟩ <;> simp [_inc]

/-- C5 witness: attempt 1 fails with HTTP 500, attempt 2 succeeds with
HTTP 200 — one JWT build, one 250 ms sleep, two attempts, success. -/
theorem C5_witness :
    (send_voip_push true [some 500, some 200] 3 initialCallMetrics).ok = true ∧
    (send_voip_push true [some 500, some 200] 3
        initialCallMetrics).attemptsMade = 2 ∧
    (send_voip_push true [some 500, some 200] 3
        initialCallMetrics).sleepsMs
      = (List.range (2 - 1)).map (fun i => 250 * 2 ^ i) ∧
    (send_voip_push true [some 500, some 200] 3
        initialCallMetrics).metrics "push_sent"
      = initialCallMetrics "push_sent" + 1 ∧
    (send_voip_push true [some 500, some 200] 3
        initialCallMetrics).metrics "push_failed"
      = initialCallMetrics "push_failed" ∧
    (∀ rs2 n m2, (send_voip_push true rs2 n m2).jwtBuilds = 1) := by
  apply C5_jwt_once_backoff_and_exact_200 [some 500, some 200] 3
    initialCallMetrics 2 (by decide) (by decide)
  · intro i hi
    interval_cases i
    decide
  · decide

/-! ## C6 -/

lemma eraseAll_nil_left (bad : List Nat) : eraseAll [] bad = [] := by
  induction bad with
  | nil => rfl
  | cons x bs ih =>
    simpa [eraseAll, List.foldl_cons, List.erase_nil] using ih

lemma eraseAll_cons_of_ne (c : Nat) (bad : List Nat)
    (h : ∀ y ∈ bad, y ≠ c) :
    ∀ l : List Nat, eraseAll (c :: l) bad = c :: eraseAll l bad := by
  induction bad with
  | nil => intro l; rfl
  | cons x bs ih =>
    intro l
    have hxc : x ≠ c := h x (List.mem_cons_self x bs)
    have herase : (c :: l).erase x = c :: l.erase x :=
      List.erase_cons_tail (by simpa using Ne.symm hxc)
    have hbs : ∀ y ∈ bs, y ≠ c := fun y hy => h y (List.mem_cons_of_mem x hy)
    calc eraseAll (c :: l) (x :: bs)
        = eraseAll ((c :: l).erase x) bs := rfl
      _ = eraseAll (c :: l.erase x) bs := by rw [herase]
      _ = c :: eraseAll (l.erase x) bs := (ih hbs) (l.erase x)
      _ = c :: eraseAll l (x :: bs) := rfl

/-- Erasing exactly the elements that fail `p` leaves the elements that
satisfy `p`. -/
lemma eraseAll_filter (p : Nat → Bool) (cs : List Nat) :
    eraseAll cs (cs.filter (fun x => !p x)) = cs.filter p := by
  induction cs with
  | nil => rfl
  | cons c l ih =>
    cases hc : p c with
    | true =>
      rw [List.filter_cons_of_neg (by simp [hc]),
        eraseAll_cons_of_ne c _ ?hne l, ih, List.filter_cons_of_pos hc]
      case hne =>
        intro y hy hyc
        have hmem := (List.mem_filter.mp hy).2
        rw [hyc, hc] at hmem
        exact Bool.noConfusion hmem
    | false =>
      rw [List.filter_cons_of_pos (by simp [hc])]
      calc eraseAll (c :: l) (c :: l.filter fun x => !p x)
          = eraseAll ((c :: l).erase c) (l.filter fun x => !p x) := rfl
        _ = eraseAll l (l.filter fun x => !p x) := by
            rw [List.erase_cons_head]
        _ = l.filter p := ih
        _ = (c :: l).filter p := by rw [List.filter_cons_of_neg (by simp [hc])]

lemma disconnect_other (s : ConnState) (u v : String) (ws : Nat)
    (hv : v ≠ u) : disconnect s u ws v = s v := by
  unfold disconnect
  cases h : s u with
  | none => rfl
  | some cs =>
    dsimp only
    split
    · simp [updateUser, hv]
    · simp [updateUser, hv]

lemma foldl_disconnect_other (bad : List Nat) (u v : String) (hv : v ≠ u) :
    ∀ s : ConnState,
      (bad.foldl (fun st ws => disconnect st u ws) s) v = s v := by
  induction bad with
  | nil => intro s; rfl
  | cons x bs ih =>
    intro s
    rw [List.foldl_cons, ih, disconnect_other s u v x hv]

lemma disconnect_of_none (s : ConnState) (u : String) (ws : Nat)
    (h : s u = none) : disconnect s u ws = s := by
  unfold disconnect
  rw [h]

lemma foldl_disconnect_of_none (bad : List Nat) (u : String) :
    ∀ s : ConnState, s u = none →
      (bad.foldl (fun st ws => disconnect st u ws) s) u = none := by
  induction bad with
  | nil => intro s h; exact h
  | cons x bs ih =>
    intro s h
    rw [List.foldl_cons, disconnect_of_none s u x h]
    exact ih s h

/-- Value at `u` after `send_to_user`'s pruning pass: the stale connections
are erased one by one, and the entry is dropped once it empties. -/
lemma foldl_disconnect_at (bad : List Nat) (u : String) :
    ∀ (s : ConnState) (cs : List Nat), s u = some cs → cs ≠ [] →
      (bad.foldl (fun st ws => disconnect st u ws) s) u
        = if eraseAll cs bad = [] then none else some (eraseAll cs bad) := by
  induction bad with
  | nil =>
    intro s cs h hne
    simp only [List.foldl_nil]
    have hcs : eraseAll cs [] = cs := rfl
    rw [hcs, if_neg hne]
    exact h
  | cons x bs ih =>
    intro s cs h hne
    rw [List.foldl_cons]
    have hx : eraseAll cs (x :: bs) = eraseAll (cs.erase x) bs := rfl
    by_cases he : cs.erase x = []
    · have hd : disconnect s u x = updateUser s u none := by
        unfold disconnect
        rw [h]
        simp [he]
      have h1 : (updateUser s u none) u = none := by simp [updateUser]
      rw [hd, foldl_disconnect_of_none bs u _ h1, hx, he,
        eraseAll_nil_left, if_pos rfl]
    · have hd : disconnect s u x = updateUser s u (some (cs.erase x)) := by
        unfold disconnect
        rw [h]
        simp [he]
      have h1 : (updateUser s u (some (cs.erase x))) u
          = some (cs.erase x) := by simp [updateUser]
      rw [hd, ih _ (cs.erase x) h1 he, hx]

/-- C6: `send_to_user` on an unknown user returns 0 deliveries, 0
serializations and an unchanged state (and, being a total function, never
raises — send failures are an input, handled by pruning).  On a registered
user it serializes once, delivers to exactly the connections whose send
succeeds, prunes every failing connection (dropping the user entry if all
fail), and leaves every other user untouched. -/
theorem C6_send_to_user_spec (s : ConnState) (u : String)
    (healthy : Nat → Bool) :
    (s u = none → send_to_user s u healthy = (0, s, 0)) ∧
    (∀ cs, s u = some cs → cs ≠ [] →
      (send_to_user s u healthy).1
        = (cs.filter (fun ws => healthy ws)).length ∧
      (send_to_user s u healthy).2.2 = 1 ∧
      (send_to_user s u healthy).2.1 u
        = (if cs.filter (fun ws => healthy ws) = [] then none
           else some (cs.filter (fun ws => healthy ws))) ∧
      (∀ v, v ≠ u → (send_to_user s u healthy).2.1 v = s v)) := by
  constructor
  · intro h
    unfold send_to_user
    rw [h]
  · intro cs h hne
    unfold send_to_user
    rw [h]
    dsimp only
    refine ⟨rfl, rfl, ?_, ?_⟩
    · rw [foldl_disconnect_at (cs.filter fun ws => !healthy ws) u s cs h hne,
        eraseAll_filter]
    · intro v hv
      exact foldl_disconnect_other _ u v hv s

/-- C6 witness: an unknown user gets 0 without a raise; for alice with
connections `[1, 2]` where sending to 2 fails, one message is delivered and
connection 2 is pruned. -/
theorem C6_witness :
    send_to_user emptyConnState "bob" (fun _ => true)
      = (0, emptyConnState, 0) ∧
    (send_to_user demoState "alice" (fun ws => ws == 1)).1 = 1 ∧
    (send_to_user demoState "alice" (fun ws => ws == 1)).2.1 "alice"
      = some [1] := by
  refine ⟨?_, ?_, ?_⟩
  · exact (C6_send_to_user_spec emptyConnState "bob" (fun _ => true)).1 rfl
  · have h := ((C6_send_to_user_spec demoState "alice"
      (fun ws => ws == 1)).2 [1, 2] (by decide) (by decide)).1
    rw [h]
    decide
  · have h := ((C6_send_to_user_spec demoState "alice"
      (fun ws => ws == 1)).2 [1, 2] (by decide) (by decide)).2.2.1
    rw [h]
    decide

/-! ## C10 -/

lemma connInv_disconnect (s : ConnState) (u : String) (ws : Nat)
    (h : ConnInv s) : ConnInv (disconnect s u ws) := by
  intro v
  unfold disconnect
  cases hu : s u with
  | none => exact h v
  | some cs =>
    dsimp only
    split
    · by_cases hv : v = u
      · simp [updateUser, hv]
      · simpa [updateUser, hv] using h v
    · next hne =>
      by_cases hv : v = u
      · simp only [updateUser, hv, if_pos rfl]
        intro hcontra
        exact hne (Option.some.inj hcontra)
      · simpa [updateUser, hv] using h v

lemma connInv_foldl_disconnect (bad : List Nat) (u : String) :
    ∀ s : ConnState, ConnInv s →
      ConnInv (bad.foldl (fun st ws => disconnect st u ws) s) := by
  induction bad with
  | nil => intro s h; exact h
  | cons x bs ih =>
    intro s h
    rw [List.foldl_cons]
    exact ih _ (connInv_disconnect s u x h)

/-- C10: the `ConnectionManager` invariant — every present user key maps to
a non-empty connection list — holds of the empty manager and is preserved by
`connect`, `disconnect` and `send_to_user`'s pruning; and `is_online` is true
exactly when the user has at least one registered live connection. -/
theorem C10_connection_manager_invariant (s : ConnState) (u : String)
    (ws : Nat) (healthy : Nat → Bool) (hInv : ConnInv s) :
    ConnInv (connect s u ws) ∧ ConnInv (disconnect s u ws) ∧
    ConnInv (send_to_user s u healthy).2.1 ∧
    (is_online s u = true ↔ ∃ cs, s u = some cs ∧ 0 < cs.length) := by
  refine ⟨?_, connInv_disconnect s u ws hInv, ?_, ?_⟩
  · intro v
    by_cases hv : v = u
    · simp [connect, updateUser, hv]
    · simpa [connect, updateUser, hv] using hInv v
  · unfold send_to_user
    cases h : s u with
    | none => exact hInv
    | some cs => exact connInv_foldl_disconnect _ u s hInv
  · unfold is_online
    cases h : s u with
    | none => simp
    | some cs => simp

/-- C10 witness: the invariant at the empty manager and one connect,
disconnect and send on it. -/
theorem C10_witness :
    ConnInv (connect emptyConnState "alice" 1) ∧
    ConnInv (disconnect emptyConnState "alice" 1) ∧
    ConnInv (send_to_user emptyConnState "alice" (fun _ => true)).2.1 ∧
    (is_online emptyConnState "alice" = true ↔
      ∃ cs, emptyConnState "alice" = some cs ∧ 0 < cs.length) :=
  C10_connection_manager_invariant emptyConnState "alice" 1 (fun _ => true)
    (fun _ h => Option.noConfusion h)

/-! ## C7 -/

/-- C7: FALSIFIED — `reset_proactive_counter` would reset a positive
`message_count` to 0 and stamp `last_reset_at`, but it has no caller: the
`message` branch of `websocket_endpoint` (the live-chat inbound-message
handler) never reads or writes `ProactiveState`, so an inbound user message
on a chat with `message_count = 3` leaves the counter at 3. -/
theorem C7_inbound_message_does_not_reset :
    (websocket_handle_message true
        (some { message_count := 3, session_counter := 7,
                last_reset_at := none })).proactive
      = some { message_count := 3, session_counter := 7,
               last_reset_at := none } ∧
    reset_proactive_counter
        (some { message_count := 3, session_counter := 7,
                last_reset_at := none }) 42
      = some { message_count := 0, session_counter := 7,
               last_reset_at := some 42 } := by
  constructor <;> decide

/-! ## C8 -/

/-- C8: a chat whose `ProactiveState.message_count` has reached the bot's
`max_messages` quota is skipped by `_process_proactive_chat`: the ReACT
agent loop is not invoked, no message is pushed, and the stored state —
`session_counter` included — is unchanged. -/
theorem C8_quota_skip (st : ProactiveState) (max_messages : Nat)
    (responses : Nat → ModelResponse)
    (h : max_messages ≤ st.message_count) :
    _process_proactive_chat (some st) max_messages responses
        react_max_iterations
      = { state := st, loop_invoked := false, pushes := [] } := by
  unfold _process_proactive_chat
  rw [Option.getD_some, if_pos h]

/-- C8 witness: `message_count = 5` at the default quota
`_get_max_messages none = 5` — the loop is not invoked. -/
theorem C8_witness :
    _process_proactive_chat
        (some { message_count := 5, session_counter := 2,
                last_reset_at := none })
        (_get_max_messages none) alwaysToolCall react_max_iterations
      = { state := { message_count := 5, session_counter := 2,
                     last_reset_at := none },
          loop_invoked := false, pushes := [] } :=
  C8_quota_skip
    { message_count := 5, session_counter := 2, last_reset_at := none }
    (_get_max_messages none) alwaysToolCall (by decide)

/-! ## C9 -/

/-- C9: firing `trigger_reminder` twice in sequence on the same reminder id
(at-least-once re-delivery) with the user row present: the first fire, which
finds the reminder incomplete, performs the side effect (exactly one for a
`call` reminder, and for other types one when a delivery channel exists) and
marks it completed; the second fire hits the completed guard and performs no
side effect; the completed flag ends true and at most one side effect occurs
in total. -/
theorem C9_double_fire_idempotent (r : Reminder) (online fcm : Bool)
    (h : r.is_completed = false) :
    (trigger_reminder (some r) true online fcm).2
      = (if r.reminder_type = "call" then 1
         else if online then 1 else if fcm then 1 else 0) ∧
    (trigger_reminder (some r) true online fcm).1
      = some { r with is_completed := true } ∧
    (trigger_reminder (trigger_reminder (some r) true online fcm).1
        true online fcm).2 = 0 ∧
    (trigger_reminder (trigger_reminder (some r) true online fcm).1
        true online fcm).1 = some { r with is_completed := true } ∧
    (trigger_reminder (some r) true online fcm).2
      + (trigger_reminder (trigger_reminder (some r) true online fcm).1
          true online fcm).2 ≤ 1 := by
  have h1 : trigger_reminder (some r) true online fcm
      = (some { r with is_completed := true },
         if r.reminder_type = "call" then 1
         else if online then 1 else if fcm then 1 else 0) := by
    simp [trigger_reminder, h]
  have h2 : trigger_reminder (some { r with is_completed := true })
      true online fcm = (some { r with is_completed := true }, 0) := by
    simp [trigger_reminder]
  rw [h1]
  dsimp only
  rw [h2]
  refine ⟨rfl, rfl, rfl, rfl, ?_⟩
  split
  · omega
  · split
    · omega
    · split <;> omega

/-- C9 witness: an incomplete `call` reminder fired twice with the user
offline and no FCM token. -/
theorem C9_witness :
    (trigger_reminder (some demoReminder) true false false).2
      = (if demoReminder.reminder_type = "call" then 1
         else if false then 1 else if false then 1 else 0) ∧
    (trigger_reminder (some demoReminder) true false false).1
      = some { demoReminder with is_completed := true } ∧
    (trigger_reminder (trigger_reminder (some demoReminder) true false
        false).1 true false false).2 = 0 ∧
    (trigger_reminder (trigger_reminder (some demoReminder) true false
        false).1 true false false).1
      = some { demoReminder with is_completed := true } ∧
    (trigger_reminder (some demoReminder) true false false).2
      + (trigger_reminder (trigger_reminder (some demoReminder) true false
          false).1 true false false).2 ≤ 1 :=
  C9_double_fire_idempotent demoReminder false false rfl
